import Mathlib

/-!
Shallow embedding of `packetsockdgram/packet_sock_dgram_udp_linux.go`:
a raw AF_PACKET/SOCK_DGRAM reader that classifies frames as IPv4 or IPv6,
parses the fixed IP header and the 8-byte UDP header, computes the UDP
payload slice and applies a destination-port filter.

Modelling conventions:
- Byte buffers are `List Nat` (each entry a byte value; Go guarantees
  entries below 256, the model does not need that bound to compute).
- Go nil versus non-nil slices matter for `ParseUDPHeader`, so its
  argument is `Option (List Nat)` with `none` for a nil slice.
- The kernel receive call `syscall.Recvfrom(fd, b, MSG_TRUNC)` is an
  oracle input `RecvResult`: either the error value it failed with, or
  the full datagram length `n` (with `MSG_TRUNC` this may exceed the
  buffer length). The buffer argument models the post-call contents.
- Go run-time failures (index out of range, slice bounds out of range,
  failed type assertion, nil dereference) are modelled by the `none`
  value of the `Option` result type; `some` is a normal return.
- A Go slice expression `b[lo:hi]` requires `0 ≤ lo ≤ hi ≤ cap(b)`;
  the model identifies capacity with length (`cap b = len b`, the case
  of an exactly-sized caller buffer).
- Machine integers are modelled as `Nat`/`Int`; all quantities involved
  (ports, 16-bit lengths, buffer lengths) are far from 64-bit overflow.
-/

/-- Big-endian 16-bit read, `binary.BigEndian.Uint16` on two bytes. -/
def be16 (hi lo : Nat) : Nat := hi * 256 + lo

/-- Go index expression `b[i]`: `none` models the run-time error when
`i` is out of range. -/
def goIndex (b : List Nat) (i : Nat) : Option Nat := b[i]?

/-- Go slice expression `b[lo:hi]` (capacity = length): `none` models
the bounds failure when `lo ≤ hi ≤ len b` does not hold. -/
def goSlice (b : List Nat) (lo hi : Int) : Option (List Nat) :=
  if 0 ≤ lo ∧ lo ≤ hi ∧ hi ≤ (b.length : Int) then
    some ((b.take hi.toNat).drop lo.toNat)
  else none

/-- Go slice expression `b[lo:]`, whose upper bound defaults to `len b`. -/
def goSliceFrom (b : List Nat) (lo : Nat) : Option (List Nat) :=
  if lo ≤ b.length then some (b.drop lo) else none

/-- `UDPHeaderLen` constant from the source. -/
def UDPHeaderLen : Nat := 8

/-- The package error values, the two error values of the external
`ipv4.ParseHeader` / `ipv6.ParseHeader` decoders, and the verbatim
passthrough of an underlying receive-call error (`recv e`). -/
inductive PErr where
  | notDestPort
  | invalidConn
  | missingAddress
  | nilHeader
  | headerTooShort
  | notIpv4
  | notIpv6
  | payloadLen
  | v4ParseHeaderTooShort
  | v4ParseBufferTooShort
  | v6ParseHeaderTooShort
  | recv (e : Nat)
deriving DecidableEq

/-- `ipv4.Header` of golang.org/x/net/ipv4, fields in source order
(`Options` is empty when the header length is the minimal 20 bytes). -/
structure Ipv4Header where
  Version : Nat
  Len : Nat
  TOS : Nat
  TotalLen : Nat
  ID : Nat
  Flags : Nat
  FragOff : Nat
  TTL : Nat
  Protocol : Nat
  Checksum : Nat
  Src : List Nat
  Dst : List Nat
  Options : List Nat
deriving DecidableEq

/-- `ipv6.Header` of golang.org/x/net/ipv6, fields in source order. -/
structure Ipv6Header where
  Version : Nat
  TrafficClass : Nat
  FlowLabel : Nat
  PayloadLen : Nat
  NextHeader : Nat
  HopLimit : Nat
  Src : List Nat
  Dst : List Nat
deriving DecidableEq

/-- `IpHeader` struct of the source: a pair of optional family headers. -/
structure IpHeader where
  Ipv4Header : Option Ipv4Header
  Ipv6Header : Option Ipv6Header
deriving DecidableEq

/-- `UdpHeader` struct of the source: four decoded fields (Go `int`). -/
structure UdpHeader where
  SourcePort : Nat
  DestinationPort : Nat
  Length : Nat
  Checksum : Nat
deriving DecidableEq

/-- External dependency `golang.org/x/net/ipv4.ParseHeader` on linux:
fails on fewer than 20 bytes, or when the encoded header length exceeds
the buffer; otherwise decodes the fixed fields (raw `TotalLen` on
linux, no OS adjustment). Indices below 20 are in range under the
length guard, so `getD` defaults are never taken. -/
def ipv4ParseHeader (b : List Nat) : Except PErr Ipv4Header :=
  if b.length < 20 then .error .v4ParseHeaderTooShort
  else
    if b.length < (b.getD 0 0 % 16) * 4 then .error .v4ParseBufferTooShort
    else .ok {
      Version := b.getD 0 0 / 16
      Len := (b.getD 0 0 % 16) * 4
      TOS := b.getD 1 0
      TotalLen := be16 (b.getD 2 0) (b.getD 3 0)
      ID := be16 (b.getD 4 0) (b.getD 5 0)
      Flags := be16 (b.getD 6 0) (b.getD 7 0) / 0x2000
      FragOff := be16 (b.getD 6 0) (b.getD 7 0) % 0x2000
      TTL := b.getD 8 0
      Protocol := b.getD 9 0
      Checksum := be16 (b.getD 10 0) (b.getD 11 0)
      Src := [b.getD 12 0, b.getD 13 0, b.getD 14 0, b.getD 15 0]
      Dst := [b.getD 16 0, b.getD 17 0, b.getD 18 0, b.getD 19 0]
      Options := if 20 < (b.getD 0 0 % 16) * 4
        then (b.drop 20).take ((b.getD 0 0 % 16) * 4 - 20) else []
    }

/-- External dependency `golang.org/x/net/ipv6.ParseHeader`: fails on
fewer than 40 bytes, otherwise decodes the fixed 40-byte header. -/
def ipv6ParseHeader (b : List Nat) : Except PErr Ipv6Header :=
  if b.length < 40 then .error .v6ParseHeaderTooShort
  else .ok {
    Version := b.getD 0 0 / 16
    TrafficClass := (b.getD 0 0 % 16) * 16 + b.getD 1 0 / 16
    FlowLabel := (b.getD 1 0 % 16) * 65536 + (b.getD 2 0) * 256 + b.getD 3 0
    PayloadLen := be16 (b.getD 4 0) (b.getD 5 0)
    NextHeader := b.getD 6 0
    HopLimit := b.getD 7 0
    Src := (b.drop 8).take 16
    Dst := (b.drop 24).take 16
  }

/-- `ParseUDPHeader` from the source: nil buffer fails with
`ErrNilHeader` (`nilHeader`), fewer than `UDPHeaderLen` bytes fail with
`ErrHeaderTooShort` (`headerTooShort`), otherwise the four big-endian
16-bit fields at offsets 0, 2, 4, 6 are decoded. The indices are in
range under the length guard, so `getD` defaults are never taken. -/
def ParseUDPHeader (b : Option (List Nat)) : Except PErr UdpHeader :=
  match b with
  | none => .error .nilHeader
  | some l =>
    if l.length < UDPHeaderLen then .error .headerTooShort
    else .ok {
      SourcePort := be16 (l.getD 0 0) (l.getD 1 0)
      DestinationPort := be16 (l.getD 2 0) (l.getD 3 0)
      Length := be16 (l.getD 4 0) (l.getD 5 0)
      Checksum := be16 (l.getD 6 0) (l.getD 7 0)
    }

/-- `syscall.Sockaddr`: the two address families the source handles. -/
inductive Sockaddr where
  | inet4 (port : Nat) (addr : List Nat)
  | inet6 (port : Nat) (addr : List Nat)
deriving DecidableEq

/-- Go type assertion `sa.(*syscall.SockaddrInet4).Port`: `none`
models the run-time failure on any other dynamic type. -/
def Sockaddr.asInet4Port : Sockaddr → Option Nat
  | .inet4 p _ => some p
  | _ => none

/-- Go type assertion `sa.(*syscall.SockaddrInet6).Port`. -/
def Sockaddr.asInet6Port : Sockaddr → Option Nat
  | .inet6 p _ => some p
  | _ => none

/-- The `handler` struct of the source. -/
structure Handler where
  fd : Nat
  sa : Sockaddr
  isIpv4 : Bool
deriving DecidableEq

/-- Outcome of `syscall.Recvfrom(fd, b, MSG_TRUNC)`, supplied as an
oracle: `err e` when the call fails with error value `e`; `ok n` when
it succeeds reporting the full datagram length `n` (which can exceed
the buffer length under truncation, and can be 0). -/
inductive RecvResult where
  | err (e : Nat)
  | ok (n : Nat)
deriving DecidableEq

/-- The five named results `(n, h, uh, p, err)` of the read methods. -/
structure ReadRet where
  n : Int
  h : Option IpHeader
  uh : Option UdpHeader
  p : Option (List Nat)
  err : Option PErr
deriving DecidableEq

/-- `handler.readFromIpv4` from the source, with the receive call as an
oracle input. The branches follow the source in order: receive error
returned verbatim with `n = -1`; first-byte check `b[0] != 0x45`
(`goIndex` models the out-of-range failure on an empty buffer); header
size check `n < 20+UDPHeaderLen`; `ipv4.ParseHeader`; `ParseUDPHeader`
on `b[20:]`; payload length `TotalLen - 28` when `TotalLen < len b`,
otherwise `len b - 28`; payload slice `b[28 : 28+payloadlen]`; the
`SockaddrInet4` assertion; destination-port filter. -/
def readFromIpv4 (st : Handler) (rv : RecvResult) (b : List Nat) : Option ReadRet :=
  match rv with
  | .err e => some ⟨-1, none, none, none, some (.recv e)⟩
  | .ok n =>
    match goIndex b 0 with
    | none => none
    | some b0 =>
      if b0 ≠ 0x45 then some ⟨(n : Int), none, none, none, some .notIpv4⟩
      else if n < 20 + UDPHeaderLen then
        some ⟨(n : Int), none, none, none, some .headerTooShort⟩
      else
        match ipv4ParseHeader b with
        | .error e => some ⟨(n : Int), none, none, none, some e⟩
        | .ok ipv4h =>
          match goSliceFrom b 20 with
          | none => none
          | some rest =>
            match ParseUDPHeader (some rest) with
            | .error e =>
              some ⟨(n : Int), some ⟨some ipv4h, none⟩, none, none, some e⟩
            | .ok uh =>
              match goSlice b 28 (28 +
                  (if ipv4h.TotalLen < b.length
                    then (ipv4h.TotalLen : Int) - 28
                    else (b.length : Int) - 28)) with
              | none => none
              | some pb =>
                match st.sa.asInet4Port with
                | none => none
                | some rcvport =>
                  if rcvport ≠ uh.DestinationPort then
                    some ⟨(n : Int), some ⟨some ipv4h, none⟩, some uh, some pb,
                      some .notDestPort⟩
                  else
                    some ⟨(n : Int), some ⟨some ipv4h, none⟩, some uh, some pb, none⟩

/-- `handler.readFromIpv6` from the source: receive error returned
verbatim with `n = -1`; first-byte check `b[0] != 0x60`;
`ipv6.ParseHeader`; `ParseUDPHeader` on `b[40:]`; strict consistency
check `n == 40 + PayloadLen`; payload slice `b[48:n]`; the
`SockaddrInet6` assertion; destination-port filter. -/
def readFromIpv6 (st : Handler) (rv : RecvResult) (b : List Nat) : Option ReadRet :=
  match rv with
  | .err e => some ⟨-1, none, none, none, some (.recv e)⟩
  | .ok n =>
    match goIndex b 0 with
    | none => none
    | some b0 =>
      if b0 ≠ 0x60 then some ⟨(n : Int), none, none, none, some .notIpv6⟩
      else
        match ipv6ParseHeader b with
        | .error e => some ⟨(n : Int), none, none, none, some e⟩
        | .ok ipv6h =>
          match goSliceFrom b 40 with
          | none => none
          | some rest =>
            match ParseUDPHeader (some rest) with
            | .error e =>
              some ⟨(n : Int), some ⟨none, some ipv6h⟩, none, none, some e⟩
            | .ok uh =>
              if n ≠ 40 + ipv6h.PayloadLen then
                some ⟨(n : Int), some ⟨none, some ipv6h⟩, none, none, some .payloadLen⟩
              else
                match goSlice b 48 (n : Int) with
                | none => none
                | some pb =>
                  match st.sa.asInet6Port with
                  | none => none
                  | some rcvport =>
                    if rcvport ≠ uh.DestinationPort then
                      some ⟨(n : Int), some ⟨none, some ipv6h⟩, some uh, some pb,
                        some .notDestPort⟩
                    else
                      some ⟨(n : Int), some ⟨none, some ipv6h⟩, some uh, some pb, none⟩

/-- `handler.ok`: true exactly when the receiver pointer is non-nil
(`none` models a nil `*handler`). -/
def handlerOk (h : Option Handler) : Bool := h.isSome

/-- `handler.readfrom`: the dispatch method. A nil receiver is legal
here (the guard body does not dereference it) and yields
`ErrInvalidConn`; otherwise it dispatches on the family fixed at
construction. -/
def handlerReadfrom (hdl : Option Handler) (rv : RecvResult) (b : List Nat) :
    Option ReadRet :=
  match hdl with
  | none => some ⟨-1, none, none, none, some .invalidConn⟩
  | some h => if h.isIpv4 then readFromIpv4 h rv b else readFromIpv6 h rv b

/-- Open-descriptor table of the kernel, the state `Conn.Close` acts
on. Modelled kernel semantics of `syscall.Close`: closing an open
descriptor removes it and succeeds; closing a descriptor that is not
open fails with `EBADF` (no descriptor reuse in between is assumed). -/
structure Kernel where
  openFds : List Nat
deriving DecidableEq

/-- The `EBADF` errno value. -/
def EBADF : Nat := 9

/-- `syscall.Close` on the modelled kernel state. -/
def sysClose (k : Kernel) (fd : Nat) : Kernel × Option Nat :=
  if fd ∈ k.openFds then (⟨k.openFds.filter (fun x => x ≠ fd)⟩, none)
  else (k, some EBADF)

/-- The `Conn` struct: its own copies of the fields plus the embedded
`handler` value (set to identical values by `newConn`). -/
structure ConnState where
  fd : Nat
  sa : Sockaddr
  isIpv4 : Bool
  hdl : Handler
deriving DecidableEq

/-- Error results of `Conn.Close`. -/
inductive CloseErr where
  | invalidConn
  | errno (e : Nat)
deriving DecidableEq

/-- `Conn.Close` from the source. The receiver is `Option ConnState`
(`none` for a nil `*Conn`). On a nil receiver the selector `c.handler`
itself is a nil dereference — Go evaluates `c.handler.ok()` as
`(&(*c).handler).ok()` and selecting a field of a nil pointer is a
run-time failure — so the call fails before `ok()` runs (`none`
outcome). On a non-nil receiver the embedded handler address is never
nil, so the `ErrInvalidConn` guard never fires and the method returns
`syscall.Close(c.fd)`. -/
def ConnClose (c : Option ConnState) (k : Kernel) :
    Option (Kernel × Option CloseErr) :=
  match c with
  | none => none
  | some st =>
    if handlerOk (some st.hdl) = false then some (k, some CloseErr.invalidConn)
    else
      match sysClose k st.fd with
      | (k2, e) => some (k2, e.map CloseErr.errno)

/-! Concrete sample states and frames used by witnesses and
counterexamples. -/

/-- Sample IPv4-family handler: descriptor 3, bound port 7. -/
def sampleH4 : Handler := ⟨3, .inet4 7 [10, 0, 0, 1], true⟩

/-- Sample IPv6-family handler: descriptor 3, bound port 7. -/
def sampleH6 : Handler := ⟨3, .inet6 7 (List.replicate 16 0), false⟩

/-- Sample connection state with descriptor 3 (embedded handler holds
the same values, as `newConn` sets them). -/
def sampleConn : ConnState :=
  ⟨3, .inet4 7 [10, 0, 0, 1], true, ⟨3, .inet4 7 [10, 0, 0, 1], true⟩⟩

/-- A 100-byte buffer whose first byte is 0x45 and whose declared
IPv4 total length (bytes 2 and 3) is 50; all other bytes zero. -/
def c1buf : List Nat := 0x45 :: 0 :: 0 :: 50 :: List.replicate 96 0

/-- A 48-byte IPv6 frame: fixed 40-byte header with PayloadLen 0,
next header 17 (UDP), followed by 8 UDP-header bytes. -/
def c7buf : List Nat :=
  0x60 :: 0 :: 0 :: 0 :: 0 :: 0 :: 17 :: 64 ::
    (List.replicate 32 0 ++ [0, 53, 0, 7, 0, 10, 0, 0])

/-- A 30-byte well-formed IPv4/UDP frame: TotalLen 30, TTL 64,
protocol 17, UDP source 53, destination 7, length 10, payload
0xAB 0xCD. -/
def frame4 : List Nat :=
  [0x45, 0, 0, 30, 0, 0, 0, 0, 64, 17, 0, 0, 10, 0, 0, 1, 10, 0, 0, 2,
   0, 53, 0, 7, 0, 10, 0, 0, 0xAB, 0xCD]

/-- A 50-byte well-formed IPv6/UDP frame: PayloadLen 10, next header
17, hop limit 64, UDP source 53, destination 7, length 10, payload
0xAB 0xCD. -/
def frame6 : List Nat :=
  0x60 :: 0 :: 0 :: 0 :: 0 :: 10 :: 17 :: 64 ::
    (List.replicate 32 0 ++ [0, 53, 0, 7, 0, 10, 0, 0, 0xAB, 0xCD])

/-- The IPv4 header decoded from `frame4`. -/
def frame4hdr : Ipv4Header :=
  ⟨4, 20, 0, 30, 0, 0, 0, 64, 17, 0, [10, 0, 0, 1], [10, 0, 0, 2], []⟩

/-- The UDP header decoded from `frame4` and `frame6`. -/
def frameUdp : UdpHeader := ⟨53, 7, 10, 0⟩

/-- The IPv6 header decoded from `frame6`. -/
def frame6hdr : Ipv6Header :=
  ⟨6, 0, 0, 10, 17, 64, List.replicate 16 0, List.replicate 16 0⟩

/-! Bridging lemmas. -/

/-- Relate `List.getD` to the optional index used in hypotheses. -/
theorem getD_of_getElem? (b : List Nat) (i x : Nat) (h : b[i]? = some x) :
    b.getD i 0 = x := by
  simp [List.getD_eq_getElem?_getD, h]

/-- Claim C3 counterexample: an empty non-nil buffer fails with
`ErrHeaderTooShort`, not with the nil-input error `ErrNilHeader`,
refuting the claim that an empty (zero-length) buffer fails with the
same error as a nil buffer. -/
theorem C3_counterexample :
    ParseUDPHeader (some []) = .error .headerTooShort
    ∧ PErr.headerTooShort ≠ PErr.nilHeader := ⟨rfl, by decide⟩

/-- Claim C3 amended: the codec fails with the nil-input error
`ErrNilHeader` exactly for a nil buffer; an empty non-nil buffer
instead fails with `ErrHeaderTooShort`; in both cases the error result
carries no partial header. -/
theorem C3_amended :
    ParseUDPHeader none = .error .nilHeader
    ∧ ParseUDPHeader (some []) = .error .headerTooShort := ⟨rfl, rfl⟩

/-- Claim C5: every non-nil buffer of fewer than 8 bytes fails with
`ErrHeaderTooShort`; every buffer of at least 8 bytes decodes the four
big-endian 16-bit fields at offsets 0, 2, 4, 6 into source port,
destination port, length and checksum; the sample bytes
00 35 00 35 00 10 00 00 decode to source 53, destination 53,
length 16, checksum 0. The codec is a pure function and its error
result carries no partial header. -/
theorem C5_udp_codec (l : List Nat) :
    (l.length < 8 → ParseUDPHeader (some l) = .error .headerTooShort)
    ∧ (8 ≤ l.length → ParseUDPHeader (some l) = .ok
        ⟨be16 (l.getD 0 0) (l.getD 1 0), be16 (l.getD 2 0) (l.getD 3 0),
         be16 (l.getD 4 0) (l.getD 5 0), be16 (l.getD 6 0) (l.getD 7 0)⟩)
    ∧ ParseUDPHeader (some [0x00, 0x35, 0x00, 0x35, 0x00, 0x10, 0x00, 0x00])
        = .ok ⟨53, 53, 16, 0⟩ := by
  refine ⟨fun h => ?_, fun h => ?_, rfl⟩
  · simp [ParseUDPHeader, UDPHeaderLen, h]
  · simp [ParseUDPHeader, UDPHeaderLen, Nat.not_lt.mpr h]

/-- Claim C5 witness: the theorem instantiated at an 8-byte buffer and
at a 3-byte buffer. -/
theorem C5_witness :
    ParseUDPHeader (some [0, 53, 0, 53, 0, 16, 0, 0]) = .ok ⟨53, 53, 16, 0⟩
    ∧ ParseUDPHeader (some [1, 2, 3]) = .error .headerTooShort := by
  refine ⟨?_, (C5_udp_codec [1, 2, 3]).1 (by decide)⟩
  have h := (C5_udp_codec [0, 53, 0, 53, 0, 16, 0, 0]).2.1 (by decide)
  rw [h]; rfl

/-- Claim C9: in both read paths a receive-call error `e` is
propagated verbatim, the returned bytesRead is -1, and no IP header,
UDP header or payload is returned. -/
theorem C9_recv_error (st : Handler) (b : List Nat) (e : Nat) :
    readFromIpv4 st (.err e) b = some ⟨-1, none, none, none, some (.recv e)⟩
    ∧ readFromIpv6 st (.err e) b = some ⟨-1, none, none, none, some (.recv e)⟩ :=
  ⟨rfl, rfl⟩

/-- Claim C6: when the first byte of the buffer is present and differs
from 0x45, the IPv4 path fails with `ErrNotIpv4` for every bytesRead
value `n` — hence before the length check and before any further
decode — and the failure still reports `n`. -/
theorem C6_not_ipv4 (st : Handler) (n : Nat) (b : List Nat) (x : Nat)
    (h0 : b[0]? = some x) (hx : x ≠ 0x45) :
    readFromIpv4 st (.ok n) b
      = some ⟨(n : Int), none, none, none, some .notIpv4⟩ := by
  simp [readFromIpv4, goIndex, h0, hx]

/-- Claim C6 witness: the theorem at first byte 0x60 and bytesRead 3
(below every header length, showing the check precedes length checks). -/
theorem C6_witness :
    readFromIpv4 sampleH4 (.ok 3) [0x60, 1, 2]
      = some ⟨3, none, none, none, some .notIpv4⟩ :=
  C6_not_ipv4 sampleH4 3 [0x60, 1, 2] 0x60 rfl (by decide)

/-- Claim C2 counterexample: the first byte 0x61 has top nibble 6, yet
the IPv6 path rejects it with `ErrNotIpv6`, refuting the claim that
every first byte with top nibble 6 (any low-nibble value) passes the
validation. -/
theorem C2_counterexample :
    (0x61 : Nat) / 16 = 6
    ∧ readFromIpv6 sampleH6 (.ok 48) [0x61]
        = some ⟨48, none, none, none, some .notIpv6⟩ := by decide

/-- Claim C10 counterexample: with an empty caller buffer and a
successful zero-byte receive, both read paths hit the unguarded `b[0]`
index and fail with a run-time index-out-of-range error (modelled
`none`) instead of failing closed with an error value. -/
theorem C10_counterexample :
    readFromIpv4 sampleH4 (.ok 0) [] = none
    ∧ readFromIpv6 sampleH6 (.ok 0) [] = none := by decide

/-- Claim C7 counterexample: a 48-byte well-formed IPv6/UDP frame with
declared PayloadLen 0 and bytesRead 40 satisfies
bytesRead = 40 + PayloadLen, yet no payload slice is returned: the
slice b[48:40] has its low bound above its high bound, a run-time
bounds failure (modelled `none`), refuting the claim that equality
always yields the payload buffer[48:bytesRead]. -/
theorem C7_counterexample :
    (ipv6ParseHeader c7buf).toOption.map Ipv6Header.PayloadLen = some 0
    ∧ (40 : Nat) = 40 + 0
    ∧ readFromIpv6 sampleH6 (.ok 40) c7buf = none := by decide

/-- Claim C1 counterexample: a frame passing every check, with
declared TotalLen 50 in a 100-byte buffer and bytesRead 28, yields a
payload of length 22 = min(TotalLen, buffer length) - 28, not
min(TotalLen, bytesRead) - 28 = 0: the code clamps the declared length
to the buffer capacity, not to the bytes actually received. -/
theorem C1_counterexample :
    (ipv4ParseHeader c1buf).toOption.map Ipv4Header.TotalLen = some 50
    ∧ (readFromIpv4 sampleH4 (.ok 28) c1buf).bind
        (fun r => Option.map List.length r.p) = some 22
    ∧ min 50 28 - 28 = 0
    ∧ (22 : Nat) ≠ 0 := by decide

/-- Claim C4 counterexample: Close on a nil (never-constructed) reader
fails with a run-time nil dereference at the embedded-handler selector
(modelled `none`), not with the `ErrInvalidConn` error the claim
requires. -/
theorem C4_counterexample :
    ConnClose none ⟨[3]⟩ = none
    ∧ (none : Option (Kernel × Option CloseErr))
        ≠ some (⟨[3]⟩, some CloseErr.invalidConn) := by decide

/-- Claim C4 amended: for a valid reader whose descriptor is open,
Close releases the handle exactly once — the descriptor leaves the
open table and no error is returned — and a second Close after the
successful one surfaces EBADF rather than silently succeeding; but
Close on a nil (never-constructed) reader fails with a run-time nil
dereference before the `ErrInvalidConn` guard can run, since a non-nil
receiver always has a non-nil embedded handler. -/
theorem C4_amended (st : ConnState) (k : Kernel) (h : st.fd ∈ k.openFds) :
    ∃ k2, ConnClose (some st) k = some (k2, none)
      ∧ st.fd ∉ k2.openFds
      ∧ ConnClose (some st) k2 = some (k2, some (CloseErr.errno EBADF))
      ∧ ConnClose none k = none := by
  refine ⟨⟨k.openFds.filter (fun x => x ≠ st.fd)⟩, ?_, ?_, ?_, rfl⟩
  · simp [ConnClose, handlerOk, sysClose, h]
  · simp [List.mem_filter]
  · simp [ConnClose, handlerOk, sysClose, List.mem_filter]

/-- Claim C4 witness: the theorem at descriptor 3 open in the kernel
table. -/
theorem C4_witness :
    ∃ k2, ConnClose (some sampleConn) ⟨[3]⟩ = some (k2, none)
      ∧ sampleConn.fd ∉ k2.openFds
      ∧ ConnClose (some sampleConn) k2 = some (k2, some (CloseErr.errno EBADF))
      ∧ ConnClose none ⟨[3]⟩ = none :=
  C4_amended sampleConn ⟨[3]⟩ (by decide)

/-- Helper: the external IPv6 decoder only ever fails with its own
header-too-short error. -/
theorem ipv6ParseHeader_error_eq (b : List Nat) (e : PErr)
    (h : ipv6ParseHeader b = .error e) : e = .v6ParseHeaderTooShort := by
  unfold ipv6ParseHeader at h
  split at h <;> simp_all

/-- Helper: the external IPv4 decoder only ever fails with one of its
two error values. -/
theorem ipv4ParseHeader_error_eq (b : List Nat) (e : PErr)
    (h : ipv4ParseHeader b = .error e) :
    e = .v4ParseHeaderTooShort ∨ e = .v4ParseBufferTooShort := by
  unfold ipv4ParseHeader at h
  repeat' split at h
  all_goals simp_all

/-- Helper: the UDP codec only ever fails with the nil-input or
header-too-short error. -/
theorem ParseUDPHeader_error_eq (b : Option (List Nat)) (e : PErr)
    (h : ParseUDPHeader b = .error e) :
    e = .nilHeader ∨ e = .headerTooShort := by
  unfold ParseUDPHeader at h
  repeat' split at h
  all_goals simp_all

/-- Claim C2 amended: the IPv6 validation accepts exactly the frames
whose first byte equals 0x60 — version 6 with a zero upper
traffic-class nibble — and fails with `ErrNotIpv6` precisely when the
first byte differs from 0x60, including bytes whose top nibble is 6
but whose low nibble is nonzero. -/
theorem C2_amended (st : Handler) (n : Nat) (b : List Nat) (x : Nat)
    (h0 : b[0]? = some x) :
    (∃ r, readFromIpv6 st (.ok n) b = some r ∧ r.err = some .notIpv6)
      ↔ x ≠ 0x60 := by
  constructor
  · rintro ⟨r, hr, herr⟩ hx
    subst hx
    simp only [readFromIpv6, goIndex, h0] at hr
    rw [if_neg (by simp)] at hr
    repeat' split at hr
    all_goals (try cases hr)
    all_goals simp_all
    · rename_i heq
      exact absurd (ipv6ParseHeader_error_eq _ _ heq) (by decide)
    · rename_i heq
      rcases ParseUDPHeader_error_eq _ _ heq with h | h <;> simp_all
  · intro hx
    refine ⟨⟨(n : Int), none, none, none, some .notIpv6⟩, ?_, rfl⟩
    simp [readFromIpv6, goIndex, h0, hx]

/-- Claim C2 witness: the theorem at the one-byte buffer 0x61, whose
top nibble is 6. -/
theorem C2_witness :
    (∃ r, readFromIpv6 sampleH6 (.ok 5) [0x61] = some r
      ∧ r.err = some PErr.notIpv6)
    ↔ (0x61 : Nat) ≠ 0x60 :=
  C2_amended sampleH6 5 [0x61] 0x61 rfl

/-- Helper: the UDP codec succeeds on any buffer of at least 8 bytes,
decoding the four big-endian fields. -/
theorem ParseUDPHeader_ok (l : List Nat) (h : 8 ≤ l.length) :
    ParseUDPHeader (some l) = .ok
      ⟨be16 (l.getD 0 0) (l.getD 1 0), be16 (l.getD 2 0) (l.getD 3 0),
       be16 (l.getD 4 0) (l.getD 5 0), be16 (l.getD 6 0) (l.getD 7 0)⟩ := by
  simp [ParseUDPHeader, UDPHeaderLen, Nat.not_lt.mpr h]

/-- Helper: a suffix slice in range. -/
theorem goSliceFrom_ok (b : List Nat) (k : Nat) (h : k ≤ b.length) :
    goSliceFrom b k = some (b.drop k) := by
  simp [goSliceFrom, h]

/-- Helper: the IPv4 payload slice expression, clamped form. -/
theorem goSlice_clamp (b : List Nat) (T : Nat) :
    goSlice b 28 (28 + (if T < b.length then (T : Int) - 28 else (b.length : Int) - 28))
      = if 28 ≤ min T b.length then some ((b.take (min T b.length)).drop 28)
        else none := by
  have h1 : (28 + (if T < b.length then (T : Int) - 28 else (b.length : Int) - 28))
      = ((min T b.length : Nat) : Int) := by
    rcases lt_or_ge T b.length with h | h
    · rw [if_pos h, Nat.min_eq_left h.le]; omega
    · rw [if_neg (Nat.not_lt.mpr h), Nat.min_eq_right h]; omega
  rw [h1]
  unfold goSlice
  rcases le_or_lt 28 (min T b.length) with h | h
  · rw [if_pos (by refine ⟨by omega, by omega, by omega⟩), if_pos h]
    have h2 : ((min T b.length : Nat) : Int).toNat = min T b.length := by omega
    have h3 : ((28 : Int)).toNat = 28 := by omega
    rw [h2, h3]
  · rw [if_neg (by omega), if_neg (Nat.not_le.mpr h)]

/-- Helper: the IPv6 payload slice expression b[48:n]. -/
theorem goSlice48 (b : List Nat) (n : Nat) :
    goSlice b 48 (n : Int)
      = if 48 ≤ n ∧ n ≤ b.length then some ((b.take n).drop 48) else none := by
  unfold goSlice
  rcases Decidable.em (48 ≤ n ∧ n ≤ b.length) with h | h
  · obtain ⟨ha, hb⟩ := h
    rw [if_pos (by omega), if_pos ⟨ha, hb⟩]
    have h2 : ((n : Nat) : Int).toNat = n := by omega
    have h3 : ((48 : Int)).toNat = 48 := by omega
    rw [h2, h3]
  · rw [if_neg ?_, if_neg h]
    intro hc
    exact h ⟨by omega, by omega⟩

/-- Helper: what a successful Go slice guarantees about its bounds. -/
theorem goSlice_some_bounds (b : List Nat) (lo hi : Int) (pb : List Nat)
    (h : goSlice b lo hi = some pb) :
    lo.toNat ≤ hi.toNat ∧ hi.toNat ≤ b.length
      ∧ pb = (b.take hi.toNat).drop lo.toNat := by
  unfold goSlice at h
  split at h
  · rename_i hc
    cases h
    exact ⟨by omega, by omega, rfl⟩
  · cases h

/-- Claim C1 amended: for a frame passing the version, length,
IP-header and UDP-header checks, the computed payload length equals
min(declaredTotalLen, length of the caller buffer) minus 28 — the
clamp is to buffer capacity, not to bytesRead — it never exceeds
buffer capacity minus 28, and the payload slice is
buffer[28 : 28+payloadLen]; when min(declaredTotalLen, buffer length)
is below 28 the slice expression has a negative length and the path
fails with a run-time bounds error instead of returning; and since the
clamp ignores bytesRead, the slice may cover buffer bytes beyond those
received. -/
theorem C1_amended (fd p : Nat) (a : List Nat) (n : Nat) (b : List Nat)
    (hdr : Ipv4Header) (h0 : b[0]? = some 0x45) (hn : 28 ≤ n)
    (hp : ipv4ParseHeader b = .ok hdr) (hl : 28 ≤ b.length) :
    (28 ≤ min hdr.TotalLen b.length →
      (readFromIpv4 ⟨fd, .inet4 p a, true⟩ (.ok n) b).bind (fun r => r.p)
        = some ((b.take (min hdr.TotalLen b.length)).drop 28)
      ∧ min hdr.TotalLen b.length - 28 ≤ b.length - 28)
    ∧ (min hdr.TotalLen b.length < 28 →
      readFromIpv4 ⟨fd, .inet4 p a, true⟩ (.ok n) b = none) := by
  have hrest : goSliceFrom b 20 = some (b.drop 20) := goSliceFrom_ok b 20 (by omega)
  have hudp := ParseUDPHeader_ok (b.drop 20) (by simp; omega)
  have hver : ¬ ((0x45 : Nat) ≠ 0x45) := by simp
  have hlen : ¬ (n < 20 + UDPHeaderLen) := by simp [UDPHeaderLen]; omega
  constructor
  · intro h28
    constructor
    · simp only [readFromIpv4, goIndex, h0]
      rw [if_neg hver, if_neg hlen]
      simp only [hp, hrest, hudp, goSlice_clamp, if_pos h28, Sockaddr.asInet4Port]
      split <;> rfl
    · omega
  · intro h28
    simp only [readFromIpv4, goIndex, h0]
    rw [if_neg hver, if_neg hlen]
    simp only [hp, hrest, hudp, goSlice_clamp, if_neg (Nat.not_le.mpr h28)]

/-- Claim C1 witness: the theorem at the concrete 100-byte buffer with
declared TotalLen 50 and bytesRead 28: the payload is the 22 bytes
buffer[28:50]. -/
theorem C1_witness :
    (readFromIpv4 ⟨3, .inet4 7 [10, 0, 0, 1], true⟩ (.ok 28) c1buf).bind
        (fun r => r.p)
      = some ((c1buf.take (min 50 c1buf.length)).drop 28)
    ∧ min 50 c1buf.length - 28 ≤ c1buf.length - 28 :=
  (C1_amended 3 7 [10, 0, 0, 1] 28 c1buf
    ⟨4, 20, 0, 50, 0, 0, 0, 0, 0, 0, [0, 0, 0, 0], [0, 0, 0, 0], []⟩
    rfl (by decide) rfl (by decide)).1 (by decide)

/-- Claim C7 amended: for a frame that passes the version check and
both header decodes, any mismatch between bytesRead and
40 + declaredPayloadLength — in either direction — fails with
`ErrPayloadLen` while still returning the already-decoded IP header;
when they are equal the payload slice buffer[48 : bytesRead] is
returned provided 48 ≤ bytesRead ≤ buffer length, and otherwise
(declaredPayloadLength below 8, or bytesRead beyond the buffer under
truncation) the slice expression fails with a run-time bounds error
instead of returning. -/
theorem C7_amended (fd p : Nat) (a : List Nat) (n : Nat) (b : List Nat)
    (hdr : Ipv6Header) (h0 : b[0]? = some 0x60)
    (hp : ipv6ParseHeader b = .ok hdr) (hl : 48 ≤ b.length) :
    (n ≠ 40 + hdr.PayloadLen →
      readFromIpv6 ⟨fd, .inet6 p a, false⟩ (.ok n) b
        = some ⟨(n : Int), some ⟨none, some hdr⟩, none, none, some .payloadLen⟩)
    ∧ (n = 40 + hdr.PayloadLen →
      if 48 ≤ n ∧ n ≤ b.length then
        (readFromIpv6 ⟨fd, .inet6 p a, false⟩ (.ok n) b).bind (fun r => r.p)
          = some ((b.take n).drop 48)
      else readFromIpv6 ⟨fd, .inet6 p a, false⟩ (.ok n) b = none) := by
  have hrest : goSliceFrom b 40 = some (b.drop 40) := goSliceFrom_ok b 40 (by omega)
  have hudp := ParseUDPHeader_ok (b.drop 40) (by simp; omega)
  have hver : ¬ ((0x60 : Nat) ≠ 0x60) := by simp
  constructor
  · intro hne
    simp only [readFromIpv6, goIndex, h0]
    rw [if_neg hver]
    simp only [hp, hrest, hudp, if_pos hne]
  · intro heq
    simp only [readFromIpv6, goIndex, h0]
    rw [if_neg hver]
    simp only [hp, hrest, hudp, if_neg (by omega : ¬ n ≠ 40 + hdr.PayloadLen),
      goSlice48, Sockaddr.asInet6Port]
    rcases Decidable.em (48 ≤ n ∧ n ≤ b.length) with h | h
    · simp only [if_pos h]
      split <;> rfl
    · simp only [if_neg h]

/-- Claim C7 witness: the theorem at the concrete 50-byte IPv6/UDP
frame with declared PayloadLen 10: bytesRead 49 mismatches and fails
with `ErrPayloadLen` carrying the decoded header, bytesRead 50 matches
and returns the payload buffer[48:50]. -/
theorem C7_witness :
    readFromIpv6 ⟨3, .inet6 7 [], false⟩ (.ok 49) frame6
      = some ⟨49, some ⟨none, some frame6hdr⟩, none, none, some PErr.payloadLen⟩
    ∧ (if 48 ≤ 50 ∧ 50 ≤ frame6.length then
        (readFromIpv6 ⟨3, .inet6 7 [], false⟩ (.ok 50) frame6).bind (fun r => r.p)
          = some ((frame6.take 50).drop 48)
      else readFromIpv6 ⟨3, .inet6 7 [], false⟩ (.ok 50) frame6 = none) :=
  ⟨(C7_amended 3 7 [] 49 frame6 frame6hdr rfl rfl (by decide)).1 (by decide),
   (C7_amended 3 7 [] 50 frame6 frame6hdr rfl rfl (by decide)).2 (by decide)⟩

/-- Claim C8: in both paths, for a correctly formed frame (one that
passes every check and whose payload slice is in range), the read
returns the fully decoded IP header, UDP header and payload slice,
with error `ErrNotDestPort` exactly when the UDP destination port
differs from the port bound into the local address, and no error when
the ports match. -/
theorem C8_port_filter
    (fd4 p4 : Nat) (a4 : List Nat) (n4 : Nat) (b4 : List Nat)
    (h4 : Ipv4Header) (u4 : UdpHeader)
    (hb40 : b4[0]? = some 0x45) (hn4 : 28 ≤ n4)
    (hp4 : ipv4ParseHeader b4 = .ok h4)
    (hu4 : ParseUDPHeader (some (b4.drop 20)) = .ok u4)
    (hl4 : 28 ≤ b4.length) (hm4 : 28 ≤ min h4.TotalLen b4.length)
    (fd6 p6 : Nat) (a6 : List Nat) (n6 : Nat) (b6 : List Nat)
    (h6 : Ipv6Header) (u6 : UdpHeader)
    (hb60 : b6[0]? = some 0x60)
    (hp6 : ipv6ParseHeader b6 = .ok h6)
    (hu6 : ParseUDPHeader (some (b6.drop 40)) = .ok u6)
    (hl6 : 48 ≤ b6.length) (hn6 : n6 = 40 + h6.PayloadLen)
    (hlo6 : 48 ≤ n6) (hhi6 : n6 ≤ b6.length) :
    readFromIpv4 ⟨fd4, .inet4 p4 a4, true⟩ (.ok n4) b4
      = some ⟨(n4 : Int), some ⟨some h4, none⟩, some u4,
          some ((b4.take (min h4.TotalLen b4.length)).drop 28),
          if p4 ≠ u4.DestinationPort then some .notDestPort else none⟩
    ∧ readFromIpv6 ⟨fd6, .inet6 p6 a6, false⟩ (.ok n6) b6
      = some ⟨(n6 : Int), some ⟨none, some h6⟩, some u6,
          some ((b6.take n6).drop 48),
          if p6 ≠ u6.DestinationPort then some .notDestPort else none⟩ := by
  constructor
  · have hrest : goSliceFrom b4 20 = some (b4.drop 20) :=
      goSliceFrom_ok b4 20 (by omega)
    have hver : ¬ ((0x45 : Nat) ≠ 0x45) := by simp
    have hlen : ¬ (n4 < 20 + UDPHeaderLen) := by simp [UDPHeaderLen]; omega
    simp only [readFromIpv4, goIndex, hb40]
    rw [if_neg hver, if_neg hlen]
    simp only [hp4, hrest, hu4, goSlice_clamp, if_pos hm4, Sockaddr.asInet4Port]
    split <;> rfl
  · have hrest : goSliceFrom b6 40 = some (b6.drop 40) :=
      goSliceFrom_ok b6 40 (by omega)
    have hver : ¬ ((0x60 : Nat) ≠ 0x60) := by simp
    simp only [readFromIpv6, goIndex, hb60]
    rw [if_neg hver]
    have hin : 48 ≤ n6 ∧ n6 ≤ b6.length := ⟨hlo6, hhi6⟩
    simp only [hp6, hrest, hu6, if_neg (by omega : ¬ n6 ≠ 40 + h6.PayloadLen),
      goSlice48, if_pos hin, Sockaddr.asInet6Port]
    split <;> rfl

/-- Claim C8 witness: the theorem at the two concrete frames; the IPv4
reader is bound to port 7 matching the destination port 7 (no error),
the IPv6 reader is bound to port 9 (mismatch, `ErrNotDestPort`), and
both return the full decoded structures. -/
theorem C8_witness :
    readFromIpv4 ⟨3, .inet4 7 [10, 0, 0, 1], true⟩ (.ok 30) frame4
      = some ⟨30, some ⟨some frame4hdr, none⟩, some frameUdp,
          some [0xAB, 0xCD], none⟩
    ∧ readFromIpv6 ⟨3, .inet6 9 [], false⟩ (.ok 50) frame6
      = some ⟨50, some ⟨none, some frame6hdr⟩, some frameUdp,
          some [0xAB, 0xCD], some PErr.notDestPort⟩ := by
  have h := C8_port_filter 3 7 [10, 0, 0, 1] 30 frame4 frame4hdr frameUdp
    rfl (by decide) rfl rfl (by decide) (by decide)
    3 9 [] 50 frame6 frame6hdr frameUdp
    rfl rfl rfl (by decide) (by decide) (by decide) (by decide)
  refine ⟨?_, ?_⟩
  · rw [h.1]; decide
  · rw [h.2]; decide

/-- Helper: bounds of a successful IPv4 payload slice at offset 28. -/
theorem goSlice28_bounds (b : List Nat) (X : Int) (p : List Nat)
    (h : goSlice b 28 X = some p) :
    ∃ hi, 28 ≤ hi ∧ hi ≤ b.length ∧ p = (b.take hi).drop 28 := by
  obtain ⟨h1, h2, h3⟩ := goSlice_some_bounds b 28 X p h
  have e : ((28 : Int)).toNat = 28 := by decide
  rw [e] at h1 h3
  exact ⟨X.toNat, h1, h2, h3⟩

/-- Helper: bounds of a successful IPv6 payload slice at offset 48. -/
theorem goSlice48_bounds (b : List Nat) (X : Int) (p : List Nat)
    (h : goSlice b 48 X = some p) :
    ∃ hi, 48 ≤ hi ∧ hi ≤ b.length ∧ p = (b.take hi).drop 48 := by
  obtain ⟨h1, h2, h3⟩ := goSlice_some_bounds b 48 X p h
  have e : ((48 : Int)).toNat = 48 := by decide
  rw [e] at h1 h3
  exact ⟨X.toNat, h1, h2, h3⟩

/-- Claim C10 amended: every payload either read path returns lies
inside the caller buffer — it is the contiguous range
buffer[28:hi] (IPv4) or buffer[48:hi] (IPv6) for some hi bounded by
the buffer length — and the offset-40 IPv6 UDP slice is taken only
behind the 40-byte header decode, so it is likewise in range; but
out-of-range situations (an empty buffer at the first-byte check, a
payload slice whose bounds leave the buffer) end in a Go run-time
bounds failure rather than failing closed with an error value, and
because the IPv4 clamp uses the buffer length rather than bytesRead,
in-range payload bytes need not all have been received. -/
theorem C10_amended (st : Handler) (rv : RecvResult) (b : List Nat)
    (r : ReadRet) (p : List Nat) :
    (readFromIpv4 st rv b = some r → r.p = some p →
      ∃ hi, 28 ≤ hi ∧ hi ≤ b.length ∧ p = (b.take hi).drop 28)
    ∧ (readFromIpv6 st rv b = some r → r.p = some p →
      ∃ hi, 48 ≤ hi ∧ hi ≤ b.length ∧ p = (b.take hi).drop 48) := by
  constructor
  · intro hr hp
    unfold readFromIpv4 at hr
    repeat' split at hr
    all_goals (try cases hr)
    all_goals simp at hp
    all_goals (subst hp; exact goSlice28_bounds _ _ _ (by assumption))
  · intro hr hp
    unfold readFromIpv6 at hr
    repeat' split at hr
    all_goals (try cases hr)
    all_goals simp at hp
    all_goals (subst hp; exact goSlice48_bounds _ _ _ (by assumption))

/-- Claim C10 witness: the theorem applied at the two concrete
well-formed frames, exhibiting the in-buffer ranges of the returned
payloads. -/
theorem C10_witness :
    (∃ hi, 28 ≤ hi ∧ hi ≤ frame4.length
      ∧ [0xAB, 0xCD] = (frame4.take hi).drop 28)
    ∧ (∃ hi, 48 ≤ hi ∧ hi ≤ frame6.length
      ∧ [0xAB, 0xCD] = (frame6.take hi).drop 48) :=
  ⟨(C10_amended ⟨3, .inet4 7 [10, 0, 0, 1], true⟩ (.ok 30) frame4
      ⟨30, some ⟨some frame4hdr, none⟩, some frameUdp, some [0xAB, 0xCD], none⟩
      [0xAB, 0xCD]).1 (by decide) rfl,
   (C10_amended ⟨3, .inet6 9 [], false⟩ (.ok 50) frame6
      ⟨50, some ⟨none, some frame6hdr⟩, some frameUdp, some [0xAB, 0xCD],
        some PErr.notDestPort⟩
      [0xAB, 0xCD]).2 (by decide) rfl⟩
